import Mathlib

/- Verification of the cuppa control-protocol core: a shallow embedding of
src/cmd.c, src/errors.c, src/io.c, src/messages.c and the declarations in
src/errors.h, src/cmd.h and src/constants.h, together with theorems checking
the natural-language specification against it.  Machine strings are modelled
as List Char; the embedding assumes input lines carry no embedded NUL byte,
which is what the C code needs for its pointer arithmetic to be meaningful. -/

namespace Cuppa

/-- Whitespace classification of isspace(3) in the C locale, as used by the
tokenizer loops in src/cmd.c. -/
def isspace (c : Char) : Bool :=
  match c with
  | ' ' | '\t' | '\n' | '\x0b' | '\x0c' | '\r' => true
  | _ => false

/-- Embedding of enum error (src/errors.h lines 42-61); the twelve enumerators
E_OK .. E_UNKNOWN in declaration order.  E_COMMAND_REJECTED and
E_COMMAND_IGNORED are referenced by src/cmd.c but are not declared in the
errors.h present under src; their declaration is code of this repository
missing from src, so the two constructors and their classification below are
modelled from the spec (sections 3, 4.2 and 7). -/
inductive Error where
  | E_OK
  | E_NO_FILE
  | E_BAD_STATE
  | E_BAD_COMMAND
  | E_BAD_FILE
  | E_BAD_CONFIG
  | E_AUDIO_INIT_FAIL
  | E_INTERNAL_ERROR
  | E_NO_MEM
  | E_EOF
  | E_INCOMPLETE
  | E_UNKNOWN
  | E_COMMAND_REJECTED
  | E_COMMAND_IGNORED
deriving DecidableEq

/-- NUM_ERRORS (src/errors.h line 60): the number of enumerators of enum
error. -/
def NUM_ERRORS : Nat := 12

/-- The numeric value of each enum error enumerator (src/errors.h: E_OK = 0 and
the rest consecutive).  The two codes missing from the errors.h under src are
placed past the enum; they are never looked up in the errors.c arrays, see
errName and errBlame. -/
def errorIdx : Error → Nat
  | .E_OK => 0
  | .E_NO_FILE => 1
  | .E_BAD_STATE => 2
  | .E_BAD_COMMAND => 3
  | .E_BAD_FILE => 4
  | .E_BAD_CONFIG => 5
  | .E_AUDIO_INIT_FAIL => 6
  | .E_INTERNAL_ERROR => 7
  | .E_NO_MEM => 8
  | .E_EOF => 9
  | .E_INCOMPLETE => 10
  | .E_UNKNOWN => 11
  | .E_COMMAND_REJECTED => 12
  | .E_COMMAND_IGNORED => 13

/-- Embedding of enum error_blame (src/errors.h lines 64-70): EB_USER = 0,
EB_ENVIRONMENT, EB_PROGRAMMER.  EB_POLICY is Modelled from the spec (section
3), which adds a POLICY blame for command rejection; it is absent from the
errors.h under src. -/
inductive ErrorBlame where
  | EB_USER
  | EB_ENVIRONMENT
  | EB_PROGRAMMER
  | EB_POLICY
deriving DecidableEq

/-- Embedding of enum response (declared in io.h, which is not under src; the
nine constructors and their order are fixed by the RESPONSES table in src/io.c
lines 50-62).  R_NOPE is Modelled from the spec (sections 3 and 6), which
requires a NOPE response code for policy rejections. -/
inductive Response where
  | R_OKAY
  | R_WHAT
  | R_FAIL
  | R_OOPS
  | R_OHAI
  | R_TTFN
  | R_STAT
  | R_TIME
  | R_DBUG
  | R_NOPE
deriving DecidableEq

/-- The eleven initializers written in the ERRORS array (src/errors.c lines
46-62), in their source order. -/
def ERRORS_INITS : List (List Char) :=
  ["OK", "NO_FILE", "BAD_STATE", "BAD_COMMAND", "BAD_FILE", "BAD_CONFIG",
   "AUDIO_INIT_FAIL", "INTERNAL_ERROR", "NO_MEM", "EOF", "UNKNOWN"].map
    String.toList

/-- Element i of const char *ERRORS[NUM_ERRORS] (src/errors.c line 46): a
static array sized NUM_ERRORS with eleven initializers, so the slot past the
initializers holds a null pointer, modelled as none.  Meaningful indices are
i < NUM_ERRORS. -/
def ERRORS (i : Nat) : Option (List Char) := ERRORS_INITS.get? i

/-- The eleven initializers written in the ERROR_BLAME array (src/errors.c
lines 67-83), in their source order. -/
def ERROR_BLAME_INITS : List ErrorBlame :=
  [.EB_PROGRAMMER, .EB_USER, .EB_USER, .EB_USER, .EB_ENVIRONMENT,
   .EB_ENVIRONMENT, .EB_ENVIRONMENT, .EB_PROGRAMMER, .EB_ENVIRONMENT,
   .EB_PROGRAMMER, .EB_PROGRAMMER]

/-- Element i of const enum error_blame ERROR_BLAME[NUM_ERRORS] (src/errors.c
line 67): a static array sized NUM_ERRORS with eleven initializers; the slot
past the initializers is zero-initialized, and value 0 is EB_USER. -/
def ERROR_BLAME (i : Nat) : ErrorBlame :=
  (ERROR_BLAME_INITS.get? i).getD .EB_USER

/-- const enum response BLAME_RESPONSE[NUM_ERROR_BLAMES] (src/errors.c lines
86-90): user errors answer WHAT, environment errors FAIL, programmer errors
OOPS.  The EB_POLICY case is Modelled from the spec (section 3: POLICY maps to
NOPE). -/
def BLAME_RESPONSE : ErrorBlame → Response
  | .EB_USER => .R_WHAT
  | .EB_ENVIRONMENT => .R_FAIL
  | .EB_PROGRAMMER => .R_OOPS
  | .EB_POLICY => .R_NOPE

/-- RESPONSES (src/io.c lines 50-62): the four-letter name of each response
code.  The R_NOPE name is Modelled from the spec (section 6). -/
def RESPONSES : Response → List Char
  | .R_OKAY => ("OKAY".toList)
  | .R_WHAT => ("WHAT".toList)
  | .R_FAIL => ("FAIL".toList)
  | .R_OOPS => ("OOPS".toList)
  | .R_OHAI => ("OHAI".toList)
  | .R_TTFN => ("TTFN".toList)
  | .R_STAT => ("STAT".toList)
  | .R_TIME => ("TIME".toList)
  | .R_DBUG => ("DBUG".toList)
  | .R_NOPE => ("NOPE".toList)

/-- RESPONSE_STDOUT (src/io.c lines 65-77): whether a response code is sent to
standard out (the client).  The R_NOPE flag is Modelled from the spec (section
7: policy rejections are reported to the client). -/
def RESPONSE_STDOUT : Response → Bool
  | .R_OKAY => true
  | .R_WHAT => true
  | .R_FAIL => true
  | .R_OOPS => true
  | .R_OHAI => true
  | .R_TTFN => true
  | .R_STAT => true
  | .R_TIME => true
  | .R_DBUG => false
  | .R_NOPE => true

/-- RESPONSE_STDERR (src/io.c lines 80-92): whether a response code is sent to
standard error (logs/console).  The R_NOPE flag is Modelled from the spec
(section 7: a policy rejection is ordinary operation, reported like WHAT). -/
def RESPONSE_STDERR : Response → Bool
  | .R_OKAY => false
  | .R_WHAT => false
  | .R_FAIL => true
  | .R_OOPS => true
  | .R_OHAI => false
  | .R_TTFN => false
  | .R_STAT => false
  | .R_TIME => false
  | .R_DBUG => true
  | .R_NOPE => false

/-- MSG_CMD_ARGN (src/messages.c lines 36-37). -/
def MSG_CMD_ARGN : List Char := ("Expecting no argument, got one".toList)

/-- MSG_CMD_ARGU (src/messages.c lines 38-39). -/
def MSG_CMD_ARGU : List Char := ("Expecting an argument, didn\x27t get one".toList)

/-- MSG_CMD_HITEND (src/messages.c lines 40-41). -/
def MSG_CMD_HITEND : List Char :=
  ("Hit end of commands list without stopping".toList)

/-- MSG_CMD_NOPROP (src/messages.c lines 42-43). -/
def MSG_CMD_NOPROP : List Char :=
  ("Command type is PROPAGATE, but propagate stream is NULL".toList)

/-- MSG_CMD_NOSUCH (src/messages.c lines 44-45). -/
def MSG_CMD_NOSUCH : List Char := ("Command not recognised".toList)

/-- MSG_CMD_NOWORD (src/messages.c lines 46-47). -/
def MSG_CMD_NOWORD : List Char := ("Need at least a command word".toList)

/-- MSG_ERR_NOMEM (src/messages.c lines 48-49). -/
def MSG_ERR_NOMEM : List Char :=
  ("(ran out of memory to write error!)".toList)

/-- Observable side effects of the embedded code: handler invocations, writes
to the propagate stream, and lines written to standard out and standard
error. -/
inductive Event where
  | invokeN : Event
  | invokeU : List Char → Event
  | propWrite : List Char → Event
  | propFlush : Event
  | stdoutWrite : List Char → Event
  | stderrWrite : List Char → Event
deriving DecidableEq

/-- vresponse (src/io.c lines 97-117): writes NAME SP message NL to standard
out iff RESPONSE_STDOUT[code] holds and the same line to standard error iff
RESPONSE_STDERR[code] holds. -/
def vresponse (code : Response) (msg : List Char) : List Event :=
  (if RESPONSE_STDOUT code then
    [.stdoutWrite (RESPONSES code ++ ' ' :: (msg ++ ['\n']))]
   else []) ++
  (if RESPONSE_STDERR code then
    [.stderrWrite (RESPONSES code ++ ' ' :: (msg ++ ['\n']))]
   else [])

/-- dbug (src/errors.c lines 93-102): a debug message is a response with code
R_DBUG. -/
def dbug (msg : List Char) : List Event := vresponse .R_DBUG msg

/-- Modelled from the spec where src is incomplete: the lookup
ERRORS[(int)code] performed by error() (src/errors.c line 121).  For the
twelve codes declared in the errors.h under src this is exactly the array
lookup; E_COMMAND_REJECTED and E_COMMAND_IGNORED are used by src/cmd.c but
missing from that errors.h, so their names follow the spec (section 8 shows
the line NOPE COMMAND_REJECTED removed; the ignored code is never surfaced,
spec section 7). -/
def errName : Error → Option (List Char)
  | .E_COMMAND_REJECTED => some ("COMMAND_REJECTED".toList)
  | .E_COMMAND_IGNORED => some ("COMMAND_IGNORED".toList)
  | e => ERRORS (errorIdx e)

/-- Modelled from the spec where src is incomplete: the lookup
ERROR_BLAME[code] performed by error() (src/errors.c line 144).  For the
twelve codes declared in the errors.h under src this is exactly the array
lookup; the blame of E_COMMAND_REJECTED follows the spec (section 3: POLICY),
and E_COMMAND_IGNORED is never classified (spec section 7), so its value is
never used. -/
def errBlame : Error → ErrorBlame
  | .E_COMMAND_REJECTED => .EB_POLICY
  | .E_COMMAND_IGNORED => .EB_PROGRAMMER
  | e => ERROR_BLAME (errorIdx e)

/-- Rendering of a possibly-null C string by printf %s: glibc prints (null)
for a null pointer.  Strictly this is undefined behavior in C; no theorem
below exercises it. -/
def cstr (s : Option (List Char)) : List Char := s.getD ("(null)".toList)

/-- error (src/errors.c lines 111-153).  The variadic rendering is modelled by
its result: rendered is the string the format and arguments produce, and alloc
says whether the calloc of the temporary buffer succeeded; on failure the
detail is replaced with MSG_ERR_NOMEM.  The classified response is emitted,
and the given code is returned. -/
def error (alloc : Bool) (code : Error) (rendered : List Char) :
    Error × List Event :=
  let emsg := cstr (errName code)
  let buf : Option (List Char) := if alloc then some rendered else none
  (code,
   vresponse (BLAME_RESPONSE (errBlame code))
     (emsg ++ ' ' ::
       (match buf with
        | none => MSG_ERR_NOMEM
        | some b => b)))

/-- enum cmd_type (src/cmd.h lines 79-86). -/
inductive CmdType where
  | C_NULLARY
  | C_UNARY
  | C_REJECT
  | C_PROPAGATE
  | C_IGNORE
  | C_END_OF_LIST
deriving DecidableEq

/-- struct cmd (src/cmd.h lines 92-101) over user data U.  The members of the
tagged union are separate fields; only the field selected by function_type is
ever read.  word = none models the ANY (NULL) wildcard. -/
structure Cmd (U : Type) where
  word : Option (List Char)
  function_type : CmdType
  ncmd : U → Error
  ucmd : U → List Char → Error
  reason : List Char

/-- The match test of exec_cmd (src/cmd.c lines 159-160): the entry word is
ANY (the null pointer) or strcmp finds it equal to the dispatched word. -/
def cmdMatches {U : Type} (c : Cmd U) (word : List Char) : Bool :=
  match c.word with
  | none => true
  | some w => decide (w = word)

/-- The loop guard of exec_cmd (src/cmd.c line 157): the walk stops at the
first entry tagged C_END_OF_LIST. -/
def notEnd {U : Type} (c : Cmd U) : Bool :=
  match c.function_type with
  | .C_END_OF_LIST => false
  | _ => true

/-- The line fprintf writes to the propagate stream (src/cmd.c lines 204-207):
the word alone, or the word, a space and the argument, newline-terminated. -/
def propLine (word : List Char) (arg : Option (List Char)) : List Char :=
  match arg with
  | none => word ++ ['\n']
  | some a => word ++ ' ' :: (a ++ ['\n'])

/-- exec_cmd_struct (src/cmd.c lines 172-218): executes one matched table
entry.  In the C_PROPAGATE case with a null propagate stream the code first
assigns err the result of error(E_INTERNAL_ERROR, ...) and then, at line 210,
unconditionally overwrites err with E_COMMAND_IGNORED, so only the emission
survives; the embedding mirrors that. -/
def exec_cmd_struct {U : Type} (alloc : Bool) (usr : U) (cmd : Cmd U)
    (word : List Char) (arg : Option (List Char)) (prop : Bool) :
    Error × List Event :=
  match cmd.function_type with
  | .C_NULLARY =>
    match arg with
    | none => (cmd.ncmd usr, [.invokeN])
    | some _ => error alloc .E_BAD_COMMAND MSG_CMD_ARGN
  | .C_UNARY =>
    match arg with
    | none => error alloc .E_BAD_COMMAND MSG_CMD_ARGU
    | some a => (cmd.ucmd usr a, [.invokeU a])
  | .C_REJECT => error alloc .E_COMMAND_REJECTED cmd.reason
  | .C_IGNORE => (.E_COMMAND_IGNORED, [])
  | .C_PROPAGATE =>
    if prop then
      (.E_COMMAND_IGNORED, [.propWrite (propLine word arg), .propFlush])
    else
      (.E_COMMAND_IGNORED, (error alloc .E_INTERNAL_ERROR MSG_CMD_NOPROP).snd)
  | .C_END_OF_LIST => error alloc .E_INTERNAL_ERROR MSG_CMD_HITEND

/-- exec_cmd (src/cmd.c lines 145-170): walk the table until an entry matches
or an END tag is reached; without a match the unknown-word user error is
raised.  The empty list models walking past the table end, which is undefined
behavior in C (tables must be END-terminated); it is given the same no-match
result the END sentinel produces. -/
def exec_cmd {U : Type} (alloc : Bool) (usr : U) (cmds : List (Cmd U))
    (word : List Char) (arg : Option (List Char)) (prop : Bool) :
    Error × List Event :=
  match cmds with
  | [] => error alloc .E_BAD_COMMAND MSG_CMD_NOSUCH
  | c :: rest =>
    if notEnd c then
      if cmdMatches c word then exec_cmd_struct alloc usr c word arg prop
      else exec_cmd alloc usr rest word arg prop
    else error alloc .E_BAD_COMMAND MSG_CMD_NOSUCH

/-- The tokenizing portion of handle_cmd (src/cmd.c lines 102-127), as a pure
function of the line getline read (terminator included).  Dropping leading
whitespace mirrors the loop at line 106; an exhausted buffer is the no-word
user error (line 109); the word runs to the next whitespace, which the loop at
line 117 nulls out; the argument starts at the next non-whitespace character,
is none when only whitespace followed the word (lines 119-120), and otherwise
ends where the backward loop at line 126 nulls the trailing whitespace of the
buffer. -/
def tokenize (line : List Char) :
    Except (Error × List Char) (List Char × Option (List Char)) :=
  let afterLead := line.dropWhile isspace
  if afterLead.isEmpty then Except.error (.E_BAD_COMMAND, MSG_CMD_NOWORD)
  else
    let word := afterLead.takeWhile (fun c => !(isspace c))
    let rest := (afterLead.dropWhile (fun c => !(isspace c))).dropWhile isspace
    if rest.isEmpty then Except.ok (word, none)
    else Except.ok (word, some ((rest.reverse.dropWhile isspace).reverse))

/-- The message of the acceptance response (src/cmd.c lines 131-135): the word
alone, or the word, a space and the argument. -/
def okayMsg (word : List Char) (arg : Option (List Char)) : List Char :=
  match arg with
  | none => word
  | some a => word ++ ' ' :: a

/-- handle_cmd (src/cmd.c lines 83-143).  The input stream is modelled by what
getline returns: none is end of file (the silent E_EOF path), some line is one
read line with its terminator.  prop says whether a propagate stream was
supplied.  On dispatch success an OKAY response echoes word and argument; the
E_COMMAND_IGNORED result is turned into E_OK with no response (lines
131-137). -/
def handle_cmd {U : Type} (alloc : Bool) (usr : U) (cmds : List (Cmd U))
    (input : Option (List Char)) (prop : Bool) : Error × List Event :=
  match input with
  | none =>
    (.E_EOF,
     dbug ("got command: (null)".toList) ++ dbug ("end of file".toList) ++
       dbug ("command processed".toList))
  | some line =>
    let ev0 := dbug (("got command: ".toList) ++ line)
    match tokenize line with
    | .error em =>
      let r := error alloc em.fst em.snd
      (r.fst, ev0 ++ r.snd ++ dbug ("command processed".toList))
    | .ok wa =>
      let r := exec_cmd alloc usr cmds wa.fst wa.snd prop
      let r2 : Error × List Event :=
        if r.fst = .E_OK then (.E_OK, vresponse .R_OKAY (okayMsg wa.fst wa.snd))
        else if r.fst = .E_COMMAND_IGNORED then (.E_OK, [])
        else (r.fst, [])
      (r2.fst, ev0 ++ r.snd ++ r2.snd ++ dbug ("command processed".toList))

/-- Following the words of the spec (section 4.1): the first
whitespace-delimited token of the line. -/
def spec_word (line : List Char) : List Char :=
  (line.dropWhile isspace).takeWhile (fun c => !(isspace c))

/-- Following the words of the spec (section 4.1): the raw text remaining
after the word. -/
def spec_rest (line : List Char) : List Char :=
  (line.dropWhile isspace).dropWhile (fun c => !(isspace c))

/-- Following the words of the spec (section 4.1): strip surrounding
whitespace. -/
def spec_strip (x : List Char) : List Char :=
  ((x.dropWhile isspace).reverse.dropWhile isspace).reverse

/-- Following the words of the spec (section 4.1): the argument is the
remaining text with surrounding whitespace stripped, none if stripping
consumes everything. -/
def spec_arg (line : List Char) : Option (List Char) :=
  if (spec_strip (spec_rest line)).isEmpty then none
  else some (spec_strip (spec_rest line))

/-- Following the words of the spec (section 4.2): the first entry, in
declaration order and before the END sentinel, whose match word is the
wildcard or equals the word. -/
def spec_dispatch {U : Type} (cmds : List (Cmd U)) (word : List Char) :
    Option (Cmd U) :=
  (cmds.takeWhile notEnd).find? (fun c => cmdMatches c word)

/-- The lines an event list writes to standard out, in order. -/
def stdoutLines (evs : List Event) : List (List Char) :=
  evs.filterMap (fun e =>
    match e with
    | .stdoutWrite l => some l
    | _ => none)

/-- The lines an event list writes to standard error, in order. -/
def stderrLines (evs : List Event) : List (List Char) :=
  evs.filterMap (fun e =>
    match e with
    | .stderrWrite l => some l
    | _ => none)

/-- The lines an event list writes to the propagate stream, in order. -/
def propWrites (evs : List Event) : List (List Char) :=
  evs.filterMap (fun e =>
    match e with
    | .propWrite l => some l
    | _ => none)

/-- Whether an event list contains a handler invocation. -/
def invokes (evs : List Event) : Bool :=
  evs.any (fun e =>
    match e with
    | .invokeN => true
    | .invokeU _ => true
    | _ => false)

/-- The head a dropWhile walk stops at fails the predicate. -/
theorem dropWhile_head_false {p : Char → Bool} :
    ∀ (l : List Char) {c : Char} {cs : List Char},
      l.dropWhile p = c :: cs → p c = false := by
  intro l
  induction l with
  | nil => intro c cs h; simp [List.dropWhile] at h
  | cons a t ih =>
    intro c cs h
    rw [List.dropWhile_cons] at h
    by_cases hp : p a = true
    · rw [if_pos hp] at h; exact ih h
    · rw [if_neg hp] at h
      injection h with h1 h2
      subst h1
      cases hb : p a
      · rfl
      · exact absurd hb hp

/-- Dropping a prefix twice drops it once. -/
theorem dropWhile_idem (p : Char → Bool) (l : List Char) :
    (l.dropWhile p).dropWhile p = l.dropWhile p := by
  cases h : l.dropWhile p with
  | nil => rfl
  | cons c cs =>
    rw [List.dropWhile_cons, dropWhile_head_false _ h]
    simp

/-- Dropping a suffix run of the predicate splits the list into the kept part
and an all-predicate tail. -/
theorem reverse_dropWhile_reverse_append (p : Char → Bool) (l : List Char) :
    ∃ w, (l.reverse.dropWhile p).reverse ++ w = l ∧ ∀ x ∈ w, p x = true := by
  refine ⟨(l.reverse.takeWhile p).reverse, ?_, ?_⟩
  · rw [← List.reverse_append, List.takeWhile_append_dropWhile,
      List.reverse_reverse]
  · intro x hx
    rw [List.mem_reverse] at hx
    exact List.mem_takeWhile_imp hx

/-- Stripping surrounding whitespace gives the empty list exactly when
dropping leading whitespace already does. -/
theorem strip_eq_nil_iff (x : List Char) :
    spec_strip x = [] ↔ x.dropWhile isspace = [] := by
  unfold spec_strip
  constructor
  · intro h
    cases hd : x.dropWhile isspace with
    | nil => rfl
    | cons d ds =>
      exfalso
      rw [hd] at h
      rw [List.reverse_eq_nil_iff] at h
      have hds : isspace d = true :=
        List.dropWhile_eq_nil_iff.mp h d (by simp)
      rw [dropWhile_head_false _ hd] at hds
      cases hds
  · intro h; rw [h]; rfl

/-- A nonempty stripped remainder carries no leading and no trailing
whitespace. -/
theorem strip_props (x : List Char) (h : spec_strip x ≠ []) :
    (spec_strip x).dropWhile isspace = spec_strip x ∧
    (spec_strip x).reverse.dropWhile isspace = (spec_strip x).reverse := by
  constructor
  · cases hd : x.dropWhile isspace with
    | nil => exact absurd ((strip_eq_nil_iff x).mpr hd) h
    | cons d ds =>
      obtain ⟨w, hw, hwall⟩ :=
        reverse_dropWhile_reverse_append isspace (x.dropWhile isspace)
      have hsx : spec_strip x ++ w = x.dropWhile isspace := hw
      cases hsa : spec_strip x with
      | nil => exact absurd hsa h
      | cons a0 a1 =>
        rw [hsa, hd, List.cons_append] at hsx
        injection hsx with h1 h2
        subst h1
        rw [List.dropWhile_cons, dropWhile_head_false _ hd]
        simp
  · unfold spec_strip
    rw [List.reverse_reverse]
    exact dropWhile_idem _ _

/-- A response emission never invokes a handler. -/
theorem invokes_vresponse (code : Response) (msg : List Char) :
    invokes (vresponse code msg) = false := by
  cases hso : RESPONSE_STDOUT code <;> cases hse : RESPONSE_STDERR code <;>
    simp [vresponse, invokes, hso, hse]

/-- Raising an error never invokes a handler. -/
theorem invokes_error (alloc : Bool) (code : Error) (rendered : List Char) :
    invokes (error alloc code rendered).snd = false :=
  invokes_vresponse _ _

/-- The dispatch walk of exec_cmd picks exactly the first matching entry ahead
of the END sentinel, and raises the unknown-word user error when there is
none. -/
theorem exec_cmd_eq_spec_dispatch {U : Type} (alloc : Bool) (usr : U)
    (cmds : List (Cmd U)) (word : List Char) (arg : Option (List Char))
    (prop : Bool) :
    exec_cmd alloc usr cmds word arg prop =
      match spec_dispatch cmds word with
      | some c => exec_cmd_struct alloc usr c word arg prop
      | none => error alloc .E_BAD_COMMAND MSG_CMD_NOSUCH := by
  induction cmds with
  | nil => rfl
  | cons c rest ih =>
    have hunf : exec_cmd alloc usr (c :: rest) word arg prop =
        if notEnd c then
          if cmdMatches c word then exec_cmd_struct alloc usr c word arg prop
          else exec_cmd alloc usr rest word arg prop
        else error alloc .E_BAD_COMMAND MSG_CMD_NOSUCH := rfl
    rw [hunf]
    unfold spec_dispatch
    rw [List.takeWhile_cons]
    by_cases hE : notEnd c = true
    · rw [if_pos hE, if_pos hE]
      by_cases hM : cmdMatches c word = true
      · rw [if_pos hM]
        simp [List.find?_cons, hM]
      · rw [if_neg hM]
        simp only [List.find?_cons, hM]
        rw [ih]
        rfl
    · rw [if_neg hE, if_neg hE]
      rfl

/-- Claim C1 (code bug in src/errors.c): enum error has twelve enumerators but
the ERRORS and ERROR_BLAME arrays carry only eleven initializers, so the name
slot of E_UNKNOWN is the null pointer and its blame slot is the
zero-initialized EB_USER, while the entries from E_INCOMPLETE on are shifted
by one: E_INCOMPLETE receives the name and blame written for E_UNKNOWN.  The
tables are therefore not total over the defined code set, against the claim,
the spec, and the instruction in src/errors.h lines 39-40 to keep the arrays
in step with the enum. -/
theorem c1_error_tables_not_total :
    ERRORS_INITS.length = 11 ∧ ERROR_BLAME_INITS.length = 11 ∧
    NUM_ERRORS = 12 ∧
    ERRORS (errorIdx .E_UNKNOWN) = none ∧
    ERROR_BLAME (errorIdx .E_UNKNOWN) = .EB_USER ∧
    ERRORS (errorIdx .E_INCOMPLETE) = some ("UNKNOWN".toList) ∧
    ERROR_BLAME (errorIdx .E_INCOMPLETE) = .EB_PROGRAMMER :=
  ⟨rfl, rfl, rfl, rfl, rfl, rfl, rfl⟩

/-- Claim C10: error returns exactly the code it was given, whatever the
rendered detail is and whether or not the temporary buffer allocation
succeeded; the emission is only a side effect. -/
theorem c10_error_returns_code (alloc : Bool) (code : Error)
    (rendered : List Char) :
    (error alloc code rendered).fst = code := rfl

/-- Claim C9: vresponse writes the line NAME SP message NL to the primary sink
iff the RESPONSE_STDOUT flag of the code is set, and the same line to the
diagnostic sink iff its RESPONSE_STDERR flag is set; the debug code R_DBUG is
never written to the primary sink. -/
theorem c9_response_routing (code : Response) (msg : List Char) :
    (stdoutLines (vresponse code msg) =
      if RESPONSE_STDOUT code then [RESPONSES code ++ ' ' :: (msg ++ ['\n'])]
      else []) ∧
    (stderrLines (vresponse code msg) =
      if RESPONSE_STDERR code then [RESPONSES code ++ ' ' :: (msg ++ ['\n'])]
      else []) ∧
    RESPONSE_STDOUT .R_DBUG = false ∧
    stdoutLines (vresponse .R_DBUG msg) = [] := by
  refine ⟨?_, ?_, rfl, by simp [vresponse, stdoutLines, RESPONSE_STDOUT,
    RESPONSE_STDERR]⟩
  · cases hso : RESPONSE_STDOUT code <;> cases hse : RESPONSE_STDERR code <;>
      simp [vresponse, stdoutLines, hso, hse]
  · cases hso : RESPONSE_STDOUT code <;> cases hse : RESPONSE_STDERR code <;>
      simp [vresponse, stderrLines, hso, hse]

/-- A PROPAGATE table entry for the word stop, as built by the PROPAGATE macro
of src/cmd.h line 58; used by claim C2. -/
def c2_cmd : Cmd Unit :=
  ⟨some ("stop".toList), .C_PROPAGATE, fun _ => .E_OK, fun _ _ => .E_OK, []⟩

/-- The END_CMDS sentinel entry of src/cmd.h line 60. -/
def end_cmd : Cmd Unit :=
  ⟨some ("XXXX".toList), .C_END_OF_LIST, fun _ => .E_OK, fun _ _ => .E_OK, []⟩

/-- Claim C2 (code bug in src/cmd.c): a matched PROPAGATE entry with no
forward sink does emit the OOPS INTERNAL_ERROR response and writes nothing to
the sink, but the err holding the error result of error() is unconditionally
overwritten with E_COMMAND_IGNORED at line 210, so the dispatch outcome is the
silent-ignore code, which handle_cmd then reports as plain success E_OK: the
internal error never reaches the caller, against the claim and the comment on
handle_cmd (src/cmd.c lines 80-81). -/
theorem c2_propagate_no_sink_swallowed :
    (exec_cmd_struct true () c2_cmd ("stop".toList) none false).fst =
      .E_COMMAND_IGNORED ∧
    (exec_cmd_struct true () c2_cmd ("stop".toList) none false).fst ≠
      .E_INTERNAL_ERROR ∧
    propWrites (exec_cmd_struct true () c2_cmd ("stop".toList) none
      false).snd = [] ∧
    stdoutLines (exec_cmd_struct true () c2_cmd ("stop".toList) none
      false).snd =
      [(("OOPS INTERNAL_ERROR Command type is PROPAGATE, but propagate stream is NULL\n").toList)] ∧
    (handle_cmd true () [c2_cmd, end_cmd] (some ("stop\n".toList))
      false).fst = .E_OK := by
  refine ⟨rfl, by decide, rfl, rfl, rfl⟩

/-- Claim C3: a matched REJECT entry invokes no handler and fails with
E_COMMAND_REJECTED; the response line surfaced to the client is NOPE
COMMAND_REJECTED followed by the configured reason, verbatim, and nothing
goes to the diagnostic sink. -/
theorem c3_reject_fails_verbatim {U : Type} (usr : U) (c : Cmd U)
    (word : List Char) (arg : Option (List Char)) (prop : Bool)
    (h : c.function_type = .C_REJECT) :
    (exec_cmd_struct true usr c word arg prop).fst = .E_COMMAND_REJECTED ∧
    invokes (exec_cmd_struct true usr c word arg prop).snd = false ∧
    stdoutLines (exec_cmd_struct true usr c word arg prop).snd =
      [("NOPE COMMAND_REJECTED ".toList) ++ (c.reason ++ ['\n'])] ∧
    stderrLines (exec_cmd_struct true usr c word arg prop).snd = [] := by
  have he : exec_cmd_struct true usr c word arg prop =
      error true .E_COMMAND_REJECTED c.reason := by
    unfold exec_cmd_struct
    rw [h]
  rw [he]
  exact ⟨rfl, invokes_error _ _ _, rfl, rfl⟩

/-- A REJECT table entry for the word stop with reason removed, as built by
the REJECT macro of src/cmd.h line 57. -/
def c3_cmd : Cmd Unit :=
  ⟨some ("stop".toList), .C_REJECT, fun _ => .E_OK, fun _ _ => .E_OK,
   ("removed".toList)⟩

/-- Witness for claim C3: the table entry REJECT stop removed yields exactly
the line NOPE COMMAND_REJECTED removed of the spec example. -/
theorem c3_reject_fails_verbatim_witness :
    c3_cmd.function_type = .C_REJECT ∧
    (exec_cmd_struct true () c3_cmd ("stop".toList) none false).fst =
      .E_COMMAND_REJECTED ∧
    invokes (exec_cmd_struct true () c3_cmd ("stop".toList) none false).snd =
      false ∧
    stdoutLines (exec_cmd_struct true () c3_cmd ("stop".toList) none
      false).snd = [("NOPE COMMAND_REJECTED removed\n".toList)] := by
  have h := c3_reject_fails_verbatim () c3_cmd ("stop".toList) none false rfl
  refine ⟨rfl, h.1, h.2.1, ?_⟩
  rw [h.2.2.1]
  rfl

/-- Claim C6: dispatch selects the first entry in declaration order, ahead of
the END sentinel, whose match word is the wildcard (the null ANY) or is
character-for-character equal to the word; with no such entry the result is
the unknown-word user error.  In particular the earlier of two applicable
entries wins and a wildcard never overrides an earlier exact match. -/
theorem c6_first_match_wins {U : Type} (alloc : Bool) (usr : U)
    (cmds : List (Cmd U)) (word : List Char) (arg : Option (List Char))
    (prop : Bool) :
    exec_cmd alloc usr cmds word arg prop =
      match spec_dispatch cmds word with
      | some c => exec_cmd_struct alloc usr c word arg prop
      | none => error alloc .E_BAD_COMMAND MSG_CMD_NOSUCH :=
  exec_cmd_eq_spec_dispatch alloc usr cmds word arg prop

/-- Claim C7: a matched NULLARY entry with an argument present and a matched
UNARY entry with no argument both fail with the BAD_COMMAND user error, and
neither handler is invoked, so no handler side effect occurs on an arity
mismatch. -/
theorem c7_arity_mismatch {U : Type} (alloc : Bool) (usr : U) (cN cU : Cmd U)
    (word : List Char) (a : List Char) (prop : Bool)
    (hN : cN.function_type = .C_NULLARY) (hU : cU.function_type = .C_UNARY) :
    (exec_cmd_struct alloc usr cN word (some a) prop =
        error alloc .E_BAD_COMMAND MSG_CMD_ARGN ∧
      (exec_cmd_struct alloc usr cN word (some a) prop).fst =
        .E_BAD_COMMAND ∧
      invokes (exec_cmd_struct alloc usr cN word (some a) prop).snd =
        false) ∧
    (exec_cmd_struct alloc usr cU word none prop =
        error alloc .E_BAD_COMMAND MSG_CMD_ARGU ∧
      (exec_cmd_struct alloc usr cU word none prop).fst = .E_BAD_COMMAND ∧
      invokes (exec_cmd_struct alloc usr cU word none prop).snd = false) := by
  have heN : exec_cmd_struct alloc usr cN word (some a) prop =
      error alloc .E_BAD_COMMAND MSG_CMD_ARGN := by
    unfold exec_cmd_struct
    rw [hN]
  have heU : exec_cmd_struct alloc usr cU word none prop =
      error alloc .E_BAD_COMMAND MSG_CMD_ARGU := by
    unfold exec_cmd_struct
    rw [hU]
  rw [heN, heU]
  exact ⟨⟨rfl, rfl, invokes_error _ _ _⟩, ⟨rfl, rfl, invokes_error _ _ _⟩⟩

/-- A NULLARY table entry for the word play, as built by the NCMD macro of
src/cmd.h line 55. -/
def c7_ncmd : Cmd Unit :=
  ⟨some ("play".toList), .C_NULLARY, fun _ => .E_OK, fun _ _ => .E_OK, []⟩

/-- A UNARY table entry for the word load, as built by the UCMD macro of
src/cmd.h line 56. -/
def c7_ucmd : Cmd Unit :=
  ⟨some ("load".toList), .C_UNARY, fun _ => .E_OK, fun _ _ => .E_OK, []⟩

/-- Witness for claim C7: NCMD play given an argument and UCMD load given
none both fail with BAD_COMMAND and invoke nothing. -/
theorem c7_arity_mismatch_witness :
    c7_ncmd.function_type = .C_NULLARY ∧ c7_ucmd.function_type = .C_UNARY ∧
    (exec_cmd_struct true () c7_ncmd ("play".toList) (some ("x".toList))
      false).fst = .E_BAD_COMMAND ∧
    invokes (exec_cmd_struct true () c7_ncmd ("play".toList)
      (some ("x".toList)) false).snd = false ∧
    (exec_cmd_struct true () c7_ucmd ("play".toList) none false).fst =
      .E_BAD_COMMAND ∧
    invokes (exec_cmd_struct true () c7_ucmd ("play".toList) none
      false).snd = false := by
  have h := c7_arity_mismatch true () c7_ncmd c7_ucmd ("play".toList)
    ("x".toList) false rfl rfl
  exact ⟨rfl, rfl, h.1.2.1, h.1.2.2, h.2.2.1, h.2.2.2⟩

/-- Claim C4 counterexample: dispatching the word x over the table that holds
only the END sentinel reaches END with no entry having matched, and the result
is the user error E_BAD_COMMAND with the message Command not recognised,
surfaced as a WHAT response, not the claimed INTERNAL_ERROR programmer
error. -/
theorem c4_end_counterexample :
    (exec_cmd true () [end_cmd] ("x".toList) none false).fst =
      .E_BAD_COMMAND ∧
    (exec_cmd true () [end_cmd] ("x".toList) none false).fst ≠
      .E_INTERNAL_ERROR ∧
    stdoutLines (exec_cmd true () [end_cmd] ("x".toList) none false).snd =
      [("WHAT BAD_COMMAND Command not recognised\n".toList)] := by
  refine ⟨rfl, by decide, rfl⟩

/-- Claim C4 as amended: reaching the END sentinel with no entry having
matched yields the user error BAD_COMMAND Command not recognised, the same
outcome as an unknown word; the programmer error INTERNAL_ERROR hit end of
list is produced only when the entry executor is applied to an END entry
itself, which the dispatch loop never does. -/
theorem c4_end_without_match {U : Type} (alloc : Bool) (usr : U)
    (cmds : List (Cmd U)) (word : List Char) (arg : Option (List Char))
    (prop : Bool)
    (h : ∀ c ∈ cmds.takeWhile notEnd, cmdMatches c word = false) :
    exec_cmd alloc usr cmds word arg prop =
      error alloc .E_BAD_COMMAND MSG_CMD_NOSUCH ∧
    ∀ c : Cmd U, c.function_type = .C_END_OF_LIST →
      exec_cmd_struct alloc usr c word arg prop =
        error alloc .E_INTERNAL_ERROR MSG_CMD_HITEND := by
  constructor
  · rw [exec_cmd_eq_spec_dispatch]
    have hnone : spec_dispatch cmds word = none := by
      unfold spec_dispatch
      rw [List.find?_eq_none]
      intro c hc
      simp [h c hc]
    rw [hnone]
  · intro c hc
    unfold exec_cmd_struct
    rw [hc]

/-- Witness for claim C4 as amended: over the table holding only the END
sentinel, the word x matches nothing, dispatch answers BAD_COMMAND, and the
executor applied to the END entry itself answers INTERNAL_ERROR. -/
theorem c4_end_without_match_witness :
    (∀ c ∈ ([end_cmd] : List (Cmd Unit)).takeWhile notEnd,
      cmdMatches c ("x".toList) = false) ∧
    exec_cmd true () [end_cmd] ("x".toList) none false =
      error true .E_BAD_COMMAND MSG_CMD_NOSUCH ∧
    exec_cmd_struct true () end_cmd ("x".toList) none false =
      error true .E_INTERNAL_ERROR MSG_CMD_HITEND := by
  have hh : ∀ c ∈ ([end_cmd] : List (Cmd Unit)).takeWhile notEnd,
      cmdMatches c ("x".toList) = false := by
    intro c hc
    simp [end_cmd, notEnd, List.takeWhile] at hc
  have h := c4_end_without_match true () [end_cmd] ("x".toList) none false hh
  exact ⟨hh, h.1, h.2 end_cmd rfl⟩

/-- tokenize on a line with no word: the no-word user error. -/
theorem tokenize_eq_noword {line : List Char}
    (h : line.dropWhile isspace = []) :
    tokenize line = Except.error (.E_BAD_COMMAND, MSG_CMD_NOWORD) := by
  simp [tokenize, h]

/-- tokenize on a line holding a word, written with the spec-side word and
remainder. -/
theorem tokenize_eq_ok {line : List Char} (h : line.dropWhile isspace ≠ []) :
    tokenize line = Except.ok (spec_word line,
      if ((spec_rest line).dropWhile isspace).isEmpty then none
      else some ((((spec_rest line).dropWhile
        isspace).reverse.dropWhile isspace).reverse)) := by
  simp only [tokenize, spec_word, spec_rest]
  rw [if_neg (by simpa [List.isEmpty_iff] using h)]
  by_cases hr : (((line.dropWhile isspace).dropWhile
      (fun c => !(isspace c))).dropWhile isspace).isEmpty = true
  · rw [if_pos hr, if_pos hr]
  · rw [if_neg hr, if_neg hr]

/-- Claim C5: a line with no non-whitespace character fails tokenizing with
the BAD_COMMAND no-word user error; otherwise the word is the first
whitespace-delimited token, the argument is the remaining text with
surrounding whitespace (terminator included) stripped, none when stripping
consumes everything, and neither word nor argument carries leading or
trailing whitespace. -/
theorem c5_tokenizer_matches_spec (line : List Char) :
    tokenize line =
      (if line.all isspace then
        Except.error (.E_BAD_COMMAND, MSG_CMD_NOWORD)
       else Except.ok (spec_word line, spec_arg line)) ∧
    (line.all isspace = false →
      spec_word line ≠ [] ∧
      (spec_word line).all (fun c => !(isspace c)) = true ∧
      ∀ a, spec_arg line = some a →
        a ≠ [] ∧ a.dropWhile isspace = a ∧
          a.reverse.dropWhile isspace = a.reverse) := by
  constructor
  · by_cases hall : line.all isspace = true
    · have hAL : line.dropWhile isspace = [] :=
        List.dropWhile_eq_nil_iff.mpr
          (fun x hx => List.all_eq_true.mp hall x hx)
      rw [if_pos hall, tokenize_eq_noword hAL]
    · have hALne : line.dropWhile isspace ≠ [] := fun hAL =>
        hall (List.all_eq_true.mpr (List.dropWhile_eq_nil_iff.mp hAL))
      rw [if_neg hall, tokenize_eq_ok hALne]
      unfold spec_arg
      have hiff := strip_eq_nil_iff (spec_rest line)
      by_cases hr : ((spec_rest line).dropWhile isspace).isEmpty = true
      · rw [if_pos hr, if_pos (by
          rw [List.isEmpty_iff]
          exact hiff.mpr (List.isEmpty_iff.mp hr))]
      · rw [if_neg hr, if_neg (fun hh => hr (by
          rw [List.isEmpty_iff]
          exact hiff.mp (List.isEmpty_iff.mp hh)))]
        rfl
  · intro hf
    have hALne : line.dropWhile isspace ≠ [] := fun hAL => by
      simp [List.all_eq_true.mpr (List.dropWhile_eq_nil_iff.mp hAL)] at hf
    cases hA : line.dropWhile isspace with
    | nil => exact absurd hA hALne
    | cons c cs =>
      have hc : isspace c = false := dropWhile_head_false _ hA
      refine ⟨?_, ?_, ?_⟩
      · unfold spec_word
        rw [hA, List.takeWhile_cons]
        simp [hc]
      · unfold spec_word
        rw [List.all_eq_true]
        intro x hx
        simpa using List.mem_takeWhile_imp hx
      · intro a ha
        unfold spec_arg at ha
        by_cases hstr : (spec_strip (spec_rest line)).isEmpty = true
        · rw [if_pos hstr] at ha
          cases ha
        · rw [if_neg hstr] at ha
          have hne : spec_strip (spec_rest line) ≠ [] := fun hnil =>
            hstr (by simp [hnil])
          obtain ⟨h1, h2⟩ := strip_props (spec_rest line) hne
          injection ha with ha2
          subst ha2
          exact ⟨hne, h1, h2⟩

/-- Witness for claim C5: the line load track1.wav of the spec example, with
its terminator, splits into word load and argument track1.wav. -/
theorem c5_tokenizer_matches_spec_witness :
    (("load track1.wav\n".toList).all isspace = false) ∧
    tokenize ("load track1.wav\n".toList) =
      Except.ok (("load".toList), some ("track1.wav".toList)) ∧
    spec_word ("load track1.wav\n".toList) ≠ [] ∧
    spec_arg ("load track1.wav\n".toList) = some ("track1.wav".toList) ∧
    ("track1.wav".toList) ≠ [] := by
  have h := c5_tokenizer_matches_spec ("load track1.wav\n".toList)
  have h2 := h.2 (by decide)
  refine ⟨by decide, ?_, h2.1, by rfl,
    (h2.2.2 ("track1.wav".toList) (by rfl)).1⟩
  rw [h.1]
  rfl

/-- Claim C8: a matched PROPAGATE entry with a forward sink present writes
exactly one line to the sink, the word alone or word SP argument, newline
terminated, then flushes; the dispatch outcome is the silent-ignore code,
which handle_cmd reports as E_OK with no acceptance response, so nothing at
all is written to the primary sink. -/
theorem c8_propagate_silent_forward {U : Type} (usr : U)
    (cmds : List (Cmd U)) (line word : List Char) (arg : Option (List Char))
    (c : Cmd U)
    (ht : tokenize line = Except.ok (word, arg))
    (hd : spec_dispatch cmds word = some c)
    (hp : c.function_type = .C_PROPAGATE) :
    handle_cmd true usr cmds (some line) true =
      (.E_OK,
       dbug (("got command: ".toList) ++ line) ++
         ([.propWrite (propLine word arg), .propFlush] ++
           dbug ("command processed".toList))) ∧
    propWrites (handle_cmd true usr cmds (some line) true).snd =
      [propLine word arg] ∧
    stdoutLines (handle_cmd true usr cmds (some line) true).snd = [] := by
  have hex : exec_cmd true usr cmds word arg true =
      (.E_COMMAND_IGNORED, [.propWrite (propLine word arg), .propFlush]) := by
    rw [exec_cmd_eq_spec_dispatch, hd]
    show exec_cmd_struct true usr c word arg true = _
    unfold exec_cmd_struct
    rw [hp]
    rfl
  have hmain : handle_cmd true usr cmds (some line) true =
      (.E_OK,
       dbug (("got command: ".toList) ++ line) ++
         ([.propWrite (propLine word arg), .propFlush] ++
           dbug ("command processed".toList))) := by
    simp only [handle_cmd, ht, hex]
    simp [List.append_assoc]
  refine ⟨hmain, ?_, ?_⟩
  · rw [hmain]
    simp [propWrites, dbug, vresponse, RESPONSE_STDOUT, RESPONSE_STDERR]
  · rw [hmain]
    simp [stdoutLines, dbug, vresponse, RESPONSE_STDOUT, RESPONSE_STDERR]

/-- A PROPAGATE table entry for the word fwd, as built by the PROPAGATE macro
of src/cmd.h line 58. -/
def c8_cmd : Cmd Unit :=
  ⟨some ("fwd".toList), .C_PROPAGATE, fun _ => .E_OK, fun _ _ => .E_OK, []⟩

/-- Witness for claim C8: the line fwd hello with trailing whitespace is
forwarded as the single line fwd SP hello NL, with nothing on the primary
sink. -/
theorem c8_propagate_silent_forward_witness :
    tokenize ("fwd hello \n".toList) =
      Except.ok (("fwd".toList), some ("hello".toList)) ∧
    spec_dispatch [c8_cmd, end_cmd] ("fwd".toList) = some c8_cmd ∧
    c8_cmd.function_type = .C_PROPAGATE ∧
    propWrites (handle_cmd true () [c8_cmd, end_cmd]
      (some ("fwd hello \n".toList)) true).snd = [("fwd hello\n".toList)] ∧
    stdoutLines (handle_cmd true () [c8_cmd, end_cmd]
      (some ("fwd hello \n".toList)) true).snd = [] ∧
    (handle_cmd true () [c8_cmd, end_cmd]
      (some ("fwd hello \n".toList)) true).fst = .E_OK := by
  have h := c8_propagate_silent_forward () [c8_cmd, end_cmd]
    ("fwd hello \n".toList) ("fwd".toList) (some ("hello".toList)) c8_cmd
    rfl rfl rfl
  refine ⟨rfl, rfl, rfl, ?_, h.2.2, ?_⟩
  · rw [h.2.1]
    rfl
  · rw [h.1]

end Cuppa
